import Mathlib

/-!
Shallow embedding of the shockwaves simulator's physics core.

The pure physics functions are embedded from `physics.js` (shipped alongside
`physics.test.js`); the per-tick update loop, the pulse lifecycle and the
sound-barrier edge detection are embedded from `sketch.js`.  Machine numbers
are modelled as `ℚ` where the code only compares and does field arithmetic,
and as `ℝ` where the code takes square roots or inverse trigonometric
functions; JavaScript `NaN` results (and `undefined` lookups) are modelled
with `Option`.
-/

namespace Shockwave

/-- `physics.js`: `SPEED_OF_SOUND = { MPH: 767, KMH: 1235, MS: 343 }`. -/
structure SpeedOfSoundConstants where
  MPH : ℚ
  KMH : ℚ
  MS : ℚ
deriving DecidableEq

def SPEED_OF_SOUND : SpeedOfSoundConstants := { MPH := 767, KMH := 1235, MS := 343 }

/-- `physics.js` `getFlightRegime`: `'subsonic'` for `mach < 1`, `'sonic'` for
`mach === 1`, `'supersonic'` otherwise. -/
def getFlightRegime (mach : ℚ) : String :=
  if mach < 1 then "subsonic"
  else if mach = 1 then "sonic"
  else "supersonic"

/-- `sketch.js` line 343: the sound-barrier flash condition
`(previousMach < 1 && mach >= 1) || (previousMach > 1 && mach <= 1)`. -/
def barrierCrossed (previousMach mach : ℚ) : Bool :=
  (decide (previousMach < 1) && decide (mach ≥ 1)) ||
  (decide (previousMach > 1) && decide (mach ≤ 1))

/-- Result record of `physics.js` `machToSpeed` (each field is
`Math.round` of a product, hence an integer). -/
structure Speed where
  mph : ℤ
  kmh : ℤ
  ms : ℤ
deriving DecidableEq

/-- `physics.js` `machToSpeed`: rounds `mach * SPEED_OF_SOUND.<unit>` to the
nearest integer in each of the three unit systems. -/
def machToSpeed (mach : ℚ) : Speed :=
  { mph := round (mach * SPEED_OF_SOUND.MPH)
    kmh := round (mach * SPEED_OF_SOUND.KMH)
    ms := round (mach * SPEED_OF_SOUND.MS) }

/-- The `divisors` object lookup in `physics.js` `speedToMach`; an
unrecognized key yields JavaScript `undefined`, modelled as `none`. -/
def speedDivisor (unit : String) : Option ℚ :=
  if unit = "mph" then some SPEED_OF_SOUND.MPH
  else if unit = "kmh" then some SPEED_OF_SOUND.KMH
  else if unit = "ms" then some SPEED_OF_SOUND.MS
  else none

/-- `physics.js` `speedToMach(speed, unit = 'mph')`: `speed / divisors[unit]`.
Division by `undefined` is JavaScript `NaN`, modelled as `none`. -/
def speedToMach (speed : ℚ) (unit : String := "mph") : Option ℚ :=
  (speedDivisor unit).map (fun d => speed / d)

/-- `physics.js` `hasWaveCrossedObserver(radiusBefore, radiusAfter,
distanceToObserver)`: `radiusBefore < distanceToObserver && radiusAfter >=
distanceToObserver`. -/
def hasWaveCrossedObserver (radiusBefore radiusAfter distanceToObserver : ℚ) : Bool :=
  decide (radiusBefore < distanceToObserver) && decide (radiusAfter ≥ distanceToObserver)

/-- `physics.js` `calculateObservedFrequency(waveHitTimes, currentTime,
windowMs = 2000)`: filter hits to `currentTime - t < windowMs`, return 0 for
at most one remaining hit, else `count / (windowMs / 1000)`. -/
def calculateObservedFrequency (waveHitTimes : List ℚ) (currentTime : ℚ)
    (windowMs : ℚ := 2000) : ℚ :=
  let recentHits := waveHitTimes.filter (fun t => decide (currentTime - t < windowMs))
  if recentHits.length ≤ 1 then 0
  else (recentHits.length : ℚ) / (windowMs / 1000)

/-- A wave pulse as pushed by `sketch.js` (`{x, y, radius, birthX}`). -/
structure Pulse where
  x : ℚ
  y : ℚ
  radius : ℚ
  birthX : ℚ
deriving DecidableEq

/-- `sketch.js`: the global `speedOfSound` constant (`let speedOfSound = 2`). -/
def speedOfSound : ℚ := 2

/-- The per-pulse advance of `sketch.js` lines 380-385: `p.radius +=
speedOfSound`, and in wind mode (`!movingSourceMode`) additionally
`p.x += mach * speedOfSound`. -/
def stepPulse (mach s : ℚ) (movingSourceMode : Bool) (p : Pulse) : Pulse :=
  { p with
    radius := p.radius + s
    x := if movingSourceMode then p.x else p.x + mach * s }

/-- The retirement test of `sketch.js` line 407:
`p.radius > 600 || p.x - p.radius > width + 100`. -/
def shouldRetire (width : ℚ) (p : Pulse) : Bool :=
  decide (p.radius > 600) || decide (p.x - p.radius > width + 100)

/-- The scan-and-compact pass of the `sketch.js` update loop (lines 374-410):
each pulse is advanced and spliced out when the retirement test holds on its
updated state.  The code iterates from the end of the array and removes in
place, which preserves the order of the kept, advanced pulses. -/
def tickPulses (mach s width : ℚ) (movingSourceMode : Bool) : List Pulse → List Pulse
  | [] => []
  | p :: rest =>
    let q := stepPulse mach s movingSourceMode p
    if shouldRetire width q then tickPulses mach s width movingSourceMode rest
    else q :: tickPulses mach s width movingSourceMode rest

/-- `physics.js` `distance(x1, y1, x2, y2)`: Euclidean distance
`Math.sqrt(dx*dx + dy*dy)` with `dx = x2 - x1`, `dy = y2 - y1`. -/
noncomputable def distance (x1 y1 x2 y2 : ℝ) : ℝ :=
  Real.sqrt ((x2 - x1) * (x2 - x1) + (y2 - y1) * (y2 - y1))

/-- `physics.js` `calculateMachAngle(mach)`: `NaN` for `mach <= 1` (modelled
as `none`), otherwise `Math.asin(1 / mach)`. -/
noncomputable def calculateMachAngle (mach : ℝ) : Option ℝ :=
  if mach ≤ 1 then none else some (Real.arcsin (1 / mach))

/-- `physics.js` `calculateMachAngleDegrees(mach)`: `calculateMachAngle(mach)
* (180 / Math.PI)`; `NaN` propagates (as `none`). -/
noncomputable def calculateMachAngleDegrees (mach : ℝ) : Option ℝ :=
  (calculateMachAngle mach).map (fun radians => radians * (180 / Real.pi))

/-- The denominator `1 - mach * alignment * 0.5` of the moving-source branch
of `physics.js` `calculateDopplerShift`, with `alignment = (dx / distance) *
1` for `dx = observerX - sourceX`. -/
noncomputable def dopplerDenominator (mach observerX observerY sourceX sourceY : ℝ) : ℝ :=
  1 - mach * ((observerX - sourceX) / distance sourceX sourceY observerX observerY) * 0.5

/-- `physics.js` `calculateDopplerShift(mach, observerX, observerY, sourceX,
sourceY, movingSourceMode)`. -/
noncomputable def calculateDopplerShift (mach observerX observerY sourceX sourceY : ℝ)
    (movingSourceMode : Bool) : ℝ :=
  if mach < 0.01 then 1
  else
    let dx := observerX - sourceX
    let dy := observerY - sourceY
    let dist := Real.sqrt (dx * dx + dy * dy)
    if dist < 1 then 1
    else
      let dirX := dx / dist
      let motionDirX : ℝ := 1
      let alignment := dirX * motionDirX
      let shift :=
        if movingSourceMode then 1 / (1 - mach * alignment * 0.5)
        else 1 + mach * alignment * 0.3
      max 0.3 (min 3 shift)

/-- The inline crossing test of the `sketch.js` update loop (lines 374-404):
`distBefore` is taken from the pre-advance pulse center, the pulse is
advanced (`radius += speedOfSound`, wind-mode drift of `x`), `distAfter`
from the updated center, and the recorded condition is
`radiusBefore < distBefore && radiusAfter >= distAfter && distAfter <=
radiusAfter && distBefore >= radiusBefore`. -/
noncomputable def inlineCrossingCondition (mach s : ℝ) (movingSourceMode : Bool)
    (px py radius observerX observerY : ℝ) : Prop :=
  let distBefore := distance px py observerX observerY
  let newX := if movingSourceMode then px else px + mach * s
  let radiusBefore := radius
  let radiusAfter := radius + s
  let distAfter := distance newX py observerX observerY
  radiusBefore < distBefore ∧ radiusAfter ≥ distAfter ∧
    distAfter ≤ radiusAfter ∧ distBefore ≥ radiusBefore

/-- Real-valued restatement of `physics.js` `hasWaveCrossedObserver`, used to
compare the tick loop's inline test against the library function. -/
def hasWaveCrossedObserverR (radiusBefore radiusAfter distanceToObserver : ℝ) : Prop :=
  radiusBefore < distanceToObserver ∧ radiusAfter ≥ distanceToObserver

/-- Evaluation helper: the Euclidean distance equals `d` whenever `d ≥ 0`
squares to the sum of coordinate squares. -/
lemma distance_eq {x1 y1 x2 y2 d : ℝ} (hd : 0 ≤ d)
    (h : d * d = (x2 - x1) * (x2 - x1) + (y2 - y1) * (y2 - y1)) :
    distance x1 y1 x2 y2 = d := by
  rw [distance, ← h, Real.sqrt_mul_self hd]

/-- C2: `hasWaveCrossedObserver(radiusBefore, radiusAfter, distanceToObserver)`
returns true iff `radiusBefore < distanceToObserver` and `radiusAfter ≥
distanceToObserver`; in particular it is true on `(50,60,55)`, false on
`(50,60,70)`, false on `(60,70,55)`, and true on `(50,60,60)`: the boundary
is inclusive only on the upper side. -/
theorem c2_hasWaveCrossedObserver_spec :
    (∀ radiusBefore radiusAfter distanceToObserver : ℚ,
      hasWaveCrossedObserver radiusBefore radiusAfter distanceToObserver = true ↔
        (radiusBefore < distanceToObserver ∧ radiusAfter ≥ distanceToObserver)) ∧
    hasWaveCrossedObserver 50 60 55 = true ∧
    hasWaveCrossedObserver 50 60 70 = false ∧
    hasWaveCrossedObserver 60 70 55 = false ∧
    hasWaveCrossedObserver 50 60 60 = true := by
  refine ⟨fun rb ra d => ?_, by decide, by decide, by decide, by decide⟩
  simp [hasWaveCrossedObserver]

/-- C7: `calculateObservedFrequency` keeps exactly the timestamps `t` with
`now - t < windowMs`, returns 0 when fewer than 2 remain, and otherwise
returns `count / (windowMs / 1000)`; with the four example evaluations from
the test suite (the last default-window call included). -/
theorem c7_observed_frequency_spec :
    (∀ (hits : List ℚ) (now windowMs t : ℚ),
      t ∈ hits.filter (fun u => decide (now - u < windowMs)) ↔
        (t ∈ hits ∧ now - t < windowMs)) ∧
    (∀ (hits : List ℚ) (now windowMs : ℚ),
      (hits.filter (fun u => decide (now - u < windowMs))).length < 2 →
        calculateObservedFrequency hits now windowMs = 0) ∧
    (∀ (hits : List ℚ) (now windowMs : ℚ),
      2 ≤ (hits.filter (fun u => decide (now - u < windowMs))).length →
        calculateObservedFrequency hits now windowMs =
          ((hits.filter (fun u => decide (now - u < windowMs))).length : ℚ) /
            (windowMs / 1000)) ∧
    (∀ t : ℚ, calculateObservedFrequency [] t = 0) ∧
    calculateObservedFrequency [500] 1000 = 0 ∧
    calculateObservedFrequency [100, 600, 1100, 1600] 2000 2000 = 2 ∧
    calculateObservedFrequency [1000, 2000, 4000, 4500] 5000 2000 = 1 := by
  refine ⟨fun hits now w t => ?_, fun hits now w h => ?_, fun hits now w h => ?_,
    fun t => ?_, by norm_num [calculateObservedFrequency],
    by norm_num [calculateObservedFrequency], by norm_num [calculateObservedFrequency]⟩
  · simp [List.mem_filter]
  · rw [calculateObservedFrequency, if_pos (by omega)]
  · rw [calculateObservedFrequency, if_neg (by omega)]
  · simp [calculateObservedFrequency]

/-- Witness for C7 at concrete inputs. -/
theorem c7_witness :
    calculateObservedFrequency [500] 1000 2000 = 0 ∧
    calculateObservedFrequency [100, 600, 1100, 1600] 2000 2000 =
      (((([100, 600, 1100, 1600] : List ℚ).filter
          (fun u => decide ((2000 : ℚ) - u < 2000))).length : ℚ) / (2000 / 1000)) :=
  ⟨c7_observed_frequency_spec.2.1 [500] 1000 2000 (by norm_num),
   c7_observed_frequency_spec.2.2.1 [100, 600, 1100, 1600] 2000 2000 (by norm_num)⟩

/-- C9: `machToSpeed` maps 0, 1 and 2 to the exact unit-constant multiples,
and the round trip through `speedToMach` in mph recovers the mach number up
to the integer-rounding error, at most `0.5 / 767 = 1 / 1534`. -/
theorem c9_mach_speed_roundtrip_spec :
    machToSpeed 0 = ⟨0, 0, 0⟩ ∧
    machToSpeed 1 = ⟨767, 1235, 343⟩ ∧
    machToSpeed 2 = ⟨1534, 2470, 686⟩ ∧
    (∀ m : ℚ, 0 ≤ m → m ≤ 3 →
      ∃ r : ℚ, speedToMach ((machToSpeed m).mph : ℚ) "mph" = some r ∧
        |r - m| ≤ 1 / 1534) := by
  refine ⟨?_, ?_, ?_, fun m _ _ => ?_⟩
  · simp [machToSpeed, SPEED_OF_SOUND]
  · simp only [machToSpeed, SPEED_OF_SOUND, Speed.mk.injEq]
    norm_num [round_eq]
  · simp only [machToSpeed, SPEED_OF_SOUND, Speed.mk.injEq]
    norm_num [round_eq]
  refine ⟨((round (m * 767) : ℤ) : ℚ) / 767, ?_, ?_⟩
  · simp [speedToMach, speedDivisor, machToSpeed, SPEED_OF_SOUND]
  · have h : |m * 767 - (round (m * 767) : ℚ)| ≤ 1 / 2 := abs_sub_round (m * 767)
    rw [show ((round (m * 767) : ℤ) : ℚ) / 767 - m =
      -(m * 767 - ((round (m * 767) : ℤ) : ℚ)) / 767 by ring, abs_div, abs_neg]
    rw [show |(767 : ℚ)| = 767 by norm_num]
    calc |m * 767 - ((round (m * 767) : ℤ) : ℚ)| / 767 ≤ (1 / 2) / 767 :=
          by gcongr
      _ ≤ 1 / 1534 := by norm_num

/-- Witness for C9: the round trip at mach 1. -/
theorem c9_witness :
    ∃ r : ℚ, speedToMach ((machToSpeed 1).mph : ℚ) "mph" = some r ∧
      |r - 1| ≤ 1 / 1534 :=
  c9_mach_speed_roundtrip_spec.2.2.2 1 (by norm_num) (by norm_num)

/-- C10: `speedToMach` yields a numeric result only for the three recognized
unit keys; any other unit string gives the `NaN`-producing `undefined`
lookup, modelled as `none`. -/
theorem c10_speed_to_mach_units_spec :
    (∀ (speed : ℚ) (unit : String),
      unit ≠ "mph" → unit ≠ "kmh" → unit ≠ "ms" → speedToMach speed unit = none) ∧
    (∀ speed : ℚ,
      speedToMach speed "mph" = some (speed / 767) ∧
      speedToMach speed "kmh" = some (speed / 1235) ∧
      speedToMach speed "ms" = some (speed / 343)) := by
  constructor
  · intro s u h1 h2 h3
    simp [speedToMach, speedDivisor, h1, h2, h3]
  · intro s
    refine ⟨?_, ?_, ?_⟩ <;> simp [speedToMach, speedDivisor, SPEED_OF_SOUND]

/-- Witness for C10: an unrecognized unit at a concrete input. -/
theorem c10_witness : speedToMach 100 "knots" = none :=
  c10_speed_to_mach_units_spec.1 100 "knots" (by decide) (by decide) (by decide)

/-- C8 counterexample: going from exactly-sonic (`previousMach = 1`) to
supersonic (`mach = 2`) changes the flight regime but does not fire the
barrier-crossed signal. -/
theorem c8_counterexample :
    barrierCrossed 1 2 = false ∧ getFlightRegime 1 ≠ getFlightRegime 2 := by
  decide

/-- C8 (amended): the barrier-crossed signal fires iff the flight regime
changed AND the previous mach was not exactly 1 — transitions leaving the
exactly-sonic state never fire. -/
theorem c8_barrier_crossing_spec :
    ∀ previousMach mach : ℚ,
      barrierCrossed previousMach mach = true ↔
        (previousMach ≠ 1 ∧ getFlightRegime previousMach ≠ getFlightRegime mach) := by
  intro prev mach
  have hbc : (barrierCrossed prev mach = true) ↔
      ((prev < 1 ∧ 1 ≤ mach) ∨ (1 < prev ∧ mach ≤ 1)) := by
    simp [barrierCrossed]
  rw [hbc]
  rcases lt_trichotomy prev 1 with hp | hp | hp
  · have hrp : getFlightRegime prev = "subsonic" := by rw [getFlightRegime, if_pos hp]
    rcases lt_trichotomy mach 1 with hm | hm | hm
    · have hrm : getFlightRegime mach = "subsonic" := by rw [getFlightRegime, if_pos hm]
      rw [hrp, hrm]
      constructor
      · rintro (⟨h1, h2⟩ | ⟨h1, h2⟩) <;> linarith
      · rintro ⟨h1, h2⟩; exact absurd rfl h2
    · subst hm
      have hrm : getFlightRegime 1 = "sonic" := by
        rw [getFlightRegime, if_neg (lt_irrefl 1), if_pos rfl]
      rw [hrp, hrm]
      exact ⟨fun h => ⟨hp.ne, by decide⟩, fun h => Or.inl ⟨hp, le_refl 1⟩⟩
    · have hrm : getFlightRegime mach = "supersonic" := by
        rw [getFlightRegime, if_neg (not_lt.mpr hm.le), if_neg hm.ne']
      rw [hrp, hrm]
      exact ⟨fun h => ⟨hp.ne, by decide⟩, fun h => Or.inl ⟨hp, hm.le⟩⟩
  · subst hp
    simp
  · have hrp : getFlightRegime prev = "supersonic" := by
      rw [getFlightRegime, if_neg (not_lt.mpr hp.le), if_neg hp.ne']
    rcases lt_trichotomy mach 1 with hm | hm | hm
    · have hrm : getFlightRegime mach = "subsonic" := by rw [getFlightRegime, if_pos hm]
      rw [hrp, hrm]
      exact ⟨fun h => ⟨hp.ne', by decide⟩, fun h => Or.inr ⟨hp, hm.le⟩⟩
    · subst hm
      have hrm : getFlightRegime 1 = "sonic" := by
        rw [getFlightRegime, if_neg (lt_irrefl 1), if_pos rfl]
      rw [hrp, hrm]
      exact ⟨fun h => ⟨hp.ne', by decide⟩, fun h => Or.inr ⟨hp, le_refl 1⟩⟩
    · have hrm : getFlightRegime mach = "supersonic" := by
        rw [getFlightRegime, if_neg (not_lt.mpr hm.le), if_neg hm.ne']
      rw [hrp, hrm]
      constructor
      · rintro (⟨h1, h2⟩ | ⟨h1, h2⟩) <;> linarith
      · rintro ⟨h1, h2⟩; exact absurd rfl h2

/-- C6: every tick each pulse's radius grows by exactly `speedOfSound`
independent of mach and mode (so it strictly increases), wind mode drifts
`x` by `mach * speedOfSound` while moving-source mode leaves the position
unchanged, and the compacted pulse list keeps exactly the advanced pulses
whose radius does not exceed 600 and whose `x - radius` has not drifted past
`width + 100`. -/
theorem c6_pulse_advance_retire_spec :
    ∀ (mach : ℚ) (movingSourceMode : Bool) (p : Pulse),
      ((stepPulse mach speedOfSound movingSourceMode p).radius = p.radius + speedOfSound) ∧
      (p.radius < (stepPulse mach speedOfSound movingSourceMode p).radius) ∧
      ((stepPulse mach speedOfSound movingSourceMode p).y = p.y) ∧
      (movingSourceMode = true → (stepPulse mach speedOfSound movingSourceMode p).x = p.x) ∧
      (movingSourceMode = false →
        (stepPulse mach speedOfSound movingSourceMode p).x = p.x + mach * speedOfSound) ∧
      (∀ (width : ℚ) (q : Pulse),
        shouldRetire width q = true ↔ (q.radius > 600 ∨ q.x - q.radius > width + 100)) ∧
      (∀ (width : ℚ) (ps : List Pulse) (q : Pulse),
        q ∈ tickPulses mach speedOfSound width movingSourceMode ps ↔
          ∃ p' ∈ ps, q = stepPulse mach speedOfSound movingSourceMode p' ∧
            shouldRetire width q = false) := by
  intro mach msm p
  refine ⟨by simp [stepPulse], by simp [stepPulse, speedOfSound], by simp [stepPulse],
    fun h => by simp [stepPulse, h], fun h => by simp [stepPulse, h],
    fun width q => by simp [shouldRetire], fun width ps q => ?_⟩
  induction ps with
  | nil => simp [tickPulses]
  | cons a rest ih =>
    rw [tickPulses]
    by_cases hr : shouldRetire width (stepPulse mach speedOfSound msm a) = true
    · rw [if_pos hr, ih]
      constructor
      · rintro ⟨p', hp', rfl, hk⟩
        exact ⟨p', List.mem_cons_of_mem _ hp', rfl, hk⟩
      · rintro ⟨p', hp', rfl, hk⟩
        rcases List.mem_cons.mp hp' with rfl | hp''
        · rw [hr] at hk; cases hk
        · exact ⟨p', hp'', rfl, hk⟩
    · rw [if_neg hr, List.mem_cons, ih]
      rw [Bool.not_eq_true] at hr
      constructor
      · rintro (rfl | ⟨p', hp', rfl, hk⟩)
        · exact ⟨a, List.mem_cons_self a rest, rfl, hr⟩
        · exact ⟨p', List.mem_cons_of_mem _ hp', rfl, hk⟩
      · rintro ⟨p', hp', rfl, hk⟩
        rcases List.mem_cons.mp hp' with rfl | hp''
        · exact Or.inl rfl
        · exact Or.inr ⟨p', hp'', rfl, hk⟩

/-- Witness for C6 at a concrete configuration: mach 2, wind mode, one kept
and one retired pulse. -/
theorem c6_witness :
    ((stepPulse 2 speedOfSound false ⟨0, 0, 8, 0⟩).x =
      (⟨0, 0, 8, 0⟩ : Pulse).x + 2 * speedOfSound) ∧
    ((stepPulse 2 speedOfSound true ⟨0, 0, 8, 0⟩).x = (⟨0, 0, 8, 0⟩ : Pulse).x) ∧
    ((⟨4, 0, 10, 0⟩ : Pulse) ∈ tickPulses 2 speedOfSound 900 false [⟨0, 0, 8, 0⟩] ↔
      ∃ p' ∈ [(⟨0, 0, 8, 0⟩ : Pulse)], (⟨4, 0, 10, 0⟩ : Pulse) = stepPulse 2 speedOfSound false p' ∧
        shouldRetire 900 ⟨4, 0, 10, 0⟩ = false) :=
  ⟨(c6_pulse_advance_retire_spec 2 false ⟨0, 0, 8, 0⟩).2.2.2.2.1 rfl,
   (c6_pulse_advance_retire_spec 2 true ⟨0, 0, 8, 0⟩).2.2.2.1 rfl,
   (c6_pulse_advance_retire_spec 2 false ⟨0, 0, 8, 0⟩).2.2.2.2.2.2 900 [⟨0, 0, 8, 0⟩] ⟨4, 0, 10, 0⟩⟩

/-- C1 counterexample: in wind mode (mach 2, speedOfSound 2) a pulse at
(0,0) with radius 8 drifts to (4,0); against an observer at (10,0) the
inline loop condition records a crossing, while
`hasWaveCrossedObserver(radiusBefore, radiusAfter, d_after)` with the
post-advance distance `d_after = 6` does not hold (`8 < 6` fails). -/
theorem c1_counterexample :
    inlineCrossingCondition 2 2 false 0 0 8 10 0 ∧
      ¬ hasWaveCrossedObserverR 8 (8 + 2) (distance (0 + 2 * 2) 0 10 0) := by
  have hb : distance 0 0 10 0 = 10 := distance_eq (by norm_num) (by norm_num)
  have ha : distance 4 0 10 0 = 6 := distance_eq (by norm_num) (by norm_num)
  have ha' : distance (0 + 2 * 2) 0 10 0 = 6 := by norm_num [ha]
  constructor
  · simp only [inlineCrossingCondition, Bool.false_eq_true, if_false]
    norm_num [hb, ha]
  · rw [hasWaveCrossedObserverR, ha']
    norm_num

/-- C1 (amended): the inline crossing test of the tick loop is equivalent to
`radiusBefore < d_before AND radiusAfter ≥ d_after`, where `d_before` is the
distance from the pre-advance center and `d_after` the distance from the
post-advance center — its last two conjuncts are redundant. -/
theorem c1_inline_condition_spec :
    ∀ (mach s : ℝ) (movingSourceMode : Bool) (px py radius observerX observerY : ℝ),
      inlineCrossingCondition mach s movingSourceMode px py radius observerX observerY ↔
        (radius < distance px py observerX observerY ∧
          radius + s ≥
            distance (if movingSourceMode then px else px + mach * s) py observerX observerY) := by
  intro mach s msm px py radius ox oy
  simp only [inlineCrossingCondition]
  constructor
  · rintro ⟨h1, h2, _, _⟩
    exact ⟨h1, h2⟩
  · rintro ⟨h1, h2⟩
    exact ⟨h1, h2, h2, h1.le⟩

/-- The horizontal offset never exceeds the Euclidean distance. -/
lemma abs_dx_le_distance (sx sy ox oy : ℝ) : |ox - sx| ≤ distance sx sy ox oy := by
  rw [distance, ← Real.sqrt_mul_self_eq_abs (ox - sx)]
  exact Real.sqrt_le_sqrt (by nlinarith [mul_self_nonneg (oy - sy)])

/-- C3 counterexample: at mach 2 with the observer 10 units directly ahead
of the source both guards pass (`mach ≥ 0.01`, distance `10 ≥ 1`), mach is
inside `[0, 3]`, yet the moving-source Doppler denominator
`1 - mach * alignment * 0.5` evaluates to exactly 0. -/
theorem c3_counterexample :
    (0 : ℝ) ≤ 2 ∧ (2 : ℝ) ≤ 3 ∧ (0.01 : ℝ) ≤ 2 ∧ 1 ≤ distance 100 50 110 50 ∧
      dopplerDenominator 2 110 50 100 50 = 0 := by
  have hd : distance 100 50 110 50 = 10 := distance_eq (by norm_num) (by norm_num)
  refine ⟨by norm_num, by norm_num, by norm_num, by rw [hd]; norm_num, ?_⟩
  rw [dopplerDenominator, hd]
  norm_num

/-- C3 (amended): under the two guards the distance divisor is nonzero, and
the moving-source denominator `1 - mach * alignment * 0.5` is positive (so
nonzero) for every mach in `[0, 2)`; only `mach * alignment = 2` — which
needs `mach ≥ 2` — can make it vanish. -/
theorem c3_doppler_divisors_spec :
    ∀ mach observerX observerY sourceX sourceY : ℝ,
      0 ≤ mach → mach < 2 → 1 ≤ distance sourceX sourceY observerX observerY →
        distance sourceX sourceY observerX observerY ≠ 0 ∧
          0 < dopplerDenominator mach observerX observerY sourceX sourceY := by
  intro m ox oy sx sy hm0 hm2 hd
  have hDpos : (0 : ℝ) < distance sx sy ox oy := lt_of_lt_of_le one_pos hd
  refine ⟨ne_of_gt hDpos, ?_⟩
  rw [dopplerDenominator]
  have habs : |ox - sx| ≤ distance sx sy ox oy := abs_dx_le_distance sx sy ox oy
  have hdir : |(ox - sx) / distance sx sy ox oy| ≤ 1 := by
    rw [abs_div, abs_of_pos hDpos]
    exact (div_le_one hDpos).mpr habs
  have h1 := (abs_le.mp hdir).2
  linarith [mul_le_mul_of_nonneg_left h1 hm0]

/-- Witness for C3 at mach 1 with the observer 10 units ahead. -/
theorem c3_witness :
    (0 : ℝ) ≤ 1 ∧ (1 : ℝ) < 2 ∧ 1 ≤ distance 100 50 110 50 ∧
      (distance 100 50 110 50 ≠ 0 ∧ 0 < dopplerDenominator 1 110 50 100 50) := by
  have hd : distance 100 50 110 50 = 10 := distance_eq (by norm_num) (by norm_num)
  exact ⟨by norm_num, by norm_num, by rw [hd]; norm_num,
    c3_doppler_divisors_spec 1 110 50 100 50 (by norm_num) (by norm_num)
      (by rw [hd]; norm_num)⟩

/-- Branch form of `calculateDopplerShift` in terms of `distance` and
`dopplerDenominator`. -/
lemma calculateDopplerShift_eq (m ox oy sx sy : ℝ) (msm : Bool) :
    calculateDopplerShift m ox oy sx sy msm =
      if m < 0.01 then 1
      else if distance sx sy ox oy < 1 then 1
      else max 0.3 (min 3
        (if msm then 1 / dopplerDenominator m ox oy sx sy
         else 1 + m * ((ox - sx) / distance sx sy ox oy) * 0.3)) := by
  simp only [calculateDopplerShift, distance, dopplerDenominator, mul_one]

/-- C4 counterexample: at mach 3 in moving-source mode with the observer
strictly ahead (both guards passing), the raw shift is `1 / (1 - 1.5) = -2`
and the clamp produces `0.3`, not a value above 1. -/
theorem c4_counterexample :
    (0.01 : ℝ) ≤ 3 ∧ 1 ≤ distance 100 50 110 50 ∧ (100 : ℝ) < 110 ∧
      calculateDopplerShift 3 110 50 100 50 true = 0.3 ∧
      ¬ (1 : ℝ) < calculateDopplerShift 3 110 50 100 50 true := by
  have hd : distance 100 50 110 50 = 10 := distance_eq (by norm_num) (by norm_num)
  have hden : dopplerDenominator 3 110 50 100 50 = -(1 / 2) := by
    rw [dopplerDenominator, hd]; norm_num
  have hval : calculateDopplerShift 3 110 50 100 50 true = 0.3 := by
    rw [calculateDopplerShift_eq, if_neg (by norm_num), hd, if_neg (by norm_num),
      if_pos rfl, hden]
    norm_num [min_def, max_def]
  exact ⟨by norm_num, by rw [hd]; norm_num, by norm_num, hval, by rw [hval]; norm_num⟩

/-- C4 (amended): `calculateDopplerShift` returns exactly 1 under either
guard (`mach < 0.01` or distance `< 1`); with the guards passing it returns
a value above 1 for an observer strictly ahead — in moving-source mode
provided `mach < 2` — and below 1 for an observer strictly behind; and the
result is always clamped into `[0.3, 3]`. -/
theorem c4_doppler_shift_spec :
    (∀ (mach observerX observerY sourceX sourceY : ℝ) (msm : Bool),
      mach < 0.01 →
        calculateDopplerShift mach observerX observerY sourceX sourceY msm = 1) ∧
    (∀ (mach observerX observerY sourceX sourceY : ℝ) (msm : Bool),
      distance sourceX sourceY observerX observerY < 1 →
        calculateDopplerShift mach observerX observerY sourceX sourceY msm = 1) ∧
    (∀ (mach observerX observerY sourceX sourceY : ℝ) (msm : Bool),
      0.01 ≤ mach → 1 ≤ distance sourceX sourceY observerX observerY →
      sourceX < observerX → (msm = true → mach < 2) →
        1 < calculateDopplerShift mach observerX observerY sourceX sourceY msm) ∧
    (∀ (mach observerX observerY sourceX sourceY : ℝ) (msm : Bool),
      0.01 ≤ mach → 1 ≤ distance sourceX sourceY observerX observerY →
      observerX < sourceX →
        calculateDopplerShift mach observerX observerY sourceX sourceY msm < 1) ∧
    (∀ (mach observerX observerY sourceX sourceY : ℝ) (msm : Bool),
      0.3 ≤ calculateDopplerShift mach observerX observerY sourceX sourceY msm ∧
        calculateDopplerShift mach observerX observerY sourceX sourceY msm ≤ 3) := by
  refine ⟨fun m ox oy sx sy msm h => ?_, fun m ox oy sx sy msm h => ?_,
    fun m ox oy sx sy msm hm hd hx hmsm => ?_, fun m ox oy sx sy msm hm hd hx => ?_,
    fun m ox oy sx sy msm => ?_⟩
  · rw [calculateDopplerShift_eq, if_pos h]
  · rw [calculateDopplerShift_eq]
    by_cases h1 : m < 0.01
    · rw [if_pos h1]
    · rw [if_neg h1, if_pos h]
  · rw [calculateDopplerShift_eq, if_neg (not_lt.mpr hm), if_neg (not_lt.mpr hd)]
    have hDpos : (0 : ℝ) < distance sx sy ox oy := lt_of_lt_of_le one_pos hd
    have hdirpos : 0 < (ox - sx) / distance sx sy ox oy :=
      div_pos (by linarith) hDpos
    have hdirle : (ox - sx) / distance sx sy ox oy ≤ 1 :=
      (div_le_one hDpos).mpr (le_trans (le_abs_self _) (abs_dx_le_distance sx sy ox oy))
    have hshift : 1 < (if msm then 1 / dopplerDenominator m ox oy sx sy
        else 1 + m * ((ox - sx) / distance sx sy ox oy) * 0.3) := by
      cases msm with
      | false =>
        rw [if_neg (by simp)]
        nlinarith [mul_pos (show (0 : ℝ) < m by linarith) hdirpos]
      | true =>
        rw [if_pos rfl]
        have hm2 : m < 2 := hmsm rfl
        have hden_lt : dopplerDenominator m ox oy sx sy < 1 := by
          rw [dopplerDenominator]
          nlinarith [mul_pos (show (0 : ℝ) < m by linarith) hdirpos]
        have hden_pos : 0 < dopplerDenominator m ox oy sx sy := by
          rw [dopplerDenominator]
          linarith [mul_le_mul_of_nonneg_left hdirle (show (0 : ℝ) ≤ m by linarith)]
        exact one_lt_one_div hden_pos hden_lt
    exact lt_of_lt_of_le (lt_min (by norm_num) hshift) (le_max_right _ _)
  · rw [calculateDopplerShift_eq, if_neg (not_lt.mpr hm), if_neg (not_lt.mpr hd)]
    have hDpos : (0 : ℝ) < distance sx sy ox oy := lt_of_lt_of_le one_pos hd
    have hdirneg : (ox - sx) / distance sx sy ox oy < 0 :=
      div_neg_of_neg_of_pos (by linarith) hDpos
    have hshift : (if msm then 1 / dopplerDenominator m ox oy sx sy
        else 1 + m * ((ox - sx) / distance sx sy ox oy) * 0.3) < 1 := by
      cases msm with
      | false =>
        rw [if_neg (by simp)]
        nlinarith [mul_neg_of_pos_of_neg (show (0 : ℝ) < m by linarith) hdirneg]
      | true =>
        rw [if_pos rfl]
        have hden_gt : 1 < dopplerDenominator m ox oy sx sy := by
          rw [dopplerDenominator]
          nlinarith [mul_neg_of_pos_of_neg (show (0 : ℝ) < m by linarith) hdirneg]
        exact (div_lt_one (by linarith)).mpr hden_gt
    exact max_lt (by norm_num) (lt_of_le_of_lt (min_le_right 3 _) hshift)
  · rw [calculateDopplerShift_eq]
    split_ifs with h1 h2 h3
    · norm_num
    · norm_num
    · exact ⟨le_max_left _ _, max_le (by norm_num) (min_le_left 3 _)⟩
    · exact ⟨le_max_left _ _, max_le (by norm_num) (min_le_left 3 _)⟩

/-- Witness for C4: both guards, an ahead case, a behind case, and the clamp
at concrete inputs. -/
theorem c4_witness :
    calculateDopplerShift 0.005 110 50 100 50 true = 1 ∧
    calculateDopplerShift 2.5 110 50 109.8 50 true = 1 ∧
    1 < calculateDopplerShift 1 110 50 100 50 true ∧
    calculateDopplerShift 1 90 50 100 50 false < 1 ∧
    (0.3 ≤ calculateDopplerShift 2.5 110 50 100 50 true ∧
      calculateDopplerShift 2.5 110 50 100 50 true ≤ 3) := by
  have hd : distance 100 50 110 50 = 10 := distance_eq (by norm_num) (by norm_num)
  have hd2 : distance 109.8 50 110 50 = 0.2 := distance_eq (by norm_num) (by norm_num)
  have hd3 : distance 100 50 90 50 = 10 := distance_eq (by norm_num) (by norm_num)
  exact ⟨c4_doppler_shift_spec.1 0.005 110 50 100 50 true (by norm_num),
    c4_doppler_shift_spec.2.1 2.5 110 50 109.8 50 true (by rw [hd2]; norm_num),
    c4_doppler_shift_spec.2.2.1 1 110 50 100 50 true (by norm_num) (by rw [hd]; norm_num)
      (by norm_num) (fun _ => by norm_num),
    c4_doppler_shift_spec.2.2.2.1 1 90 50 100 50 false (by norm_num) (by rw [hd3]; norm_num)
      (by norm_num),
    c4_doppler_shift_spec.2.2.2.2 2.5 110 50 100 50 true⟩

/-- Fourth-order upper Taylor bound for `sin` on `[0, 1]`. -/
lemma sin_upper_taylor {x : ℝ} (h0 : 0 ≤ x) (h1 : x ≤ 1) :
    Real.sin x ≤ x - x ^ 3 / 6 + x ^ 4 * (5 / 96) := by
  have h := Real.sin_bound (by rwa [abs_of_nonneg h0])
  rw [abs_of_nonneg h0] at h
  linarith [(abs_le.mp h).2]

/-- Fourth-order lower Taylor bound for `sin` on `[0, 1]`. -/
lemma sin_lower_taylor {x : ℝ} (h0 : 0 ≤ x) (h1 : x ≤ 1) :
    x - x ^ 3 / 6 - x ^ 4 * (5 / 96) ≤ Real.sin x := by
  have h := Real.sin_bound (by rwa [abs_of_nonneg h0])
  rw [abs_of_nonneg h0] at h
  linarith [(abs_le.mp h).1]

/-- Fourth-order upper Taylor bound for `cos` on `[0, 1]`. -/
lemma cos_upper_taylor {x : ℝ} (h0 : 0 ≤ x) (h1 : x ≤ 1) :
    Real.cos x ≤ 1 - x ^ 2 / 2 + x ^ 4 * (5 / 96) := by
  have h := Real.cos_bound (by rwa [abs_of_nonneg h0])
  rw [abs_of_nonneg h0] at h
  linarith [(abs_le.mp h).2]

/-- Fourth-order lower Taylor bound for `cos` on `[0, 1]`. -/
lemma cos_lower_taylor {x : ℝ} (h0 : 0 ≤ x) (h1 : x ≤ 1) :
    1 - x ^ 2 / 2 - x ^ 4 * (5 / 96) ≤ Real.cos x := by
  have h := Real.cos_bound (by rwa [abs_of_nonneg h0])
  rw [abs_of_nonneg h0] at h
  linarith [(abs_le.mp h).1]

/-- Numeric bound: `sin(19.46 · 3.141593 / 180) < 1/3`, via the double-angle
formula and the quartic Taylor bounds at the half angle. -/
lemma sin_a1_lt_third : Real.sin (19.46 * 3.141593 / 180) < 1 / 3 := by
  have hx : (19.46 * 3.141593 / 180 : ℝ) = 2 * (19.46 * 3.141593 / 360) := by norm_num
  rw [hx, Real.sin_two_mul]
  have h0 : (0 : ℝ) ≤ 19.46 * 3.141593 / 360 := by norm_num
  have h1 : (19.46 * 3.141593 / 360 : ℝ) ≤ 1 := by norm_num
  have hs := sin_upper_taylor h0 h1
  have hc := cos_upper_taylor h0 h1
  have hs0 : 0 ≤ Real.sin (19.46 * 3.141593 / 360) :=
    le_of_lt (Real.sin_pos_of_pos_of_le_one (by norm_num) h1)
  have hc0 : 0 ≤ Real.cos (19.46 * 3.141593 / 360) :=
    le_of_lt (Real.cos_pos_of_le_one (by rw [abs_of_nonneg h0]; exact h1))
  have key := mul_le_mul hs hc hc0 (hs0.trans hs)
  nlinarith [key]

/-- Numeric bound: `1/3 < sin(19.48 · 3.141592 / 180)`, via the double-angle
formula and the quartic Taylor bounds at the half angle. -/
lemma third_lt_sin_a2 : (1 / 3 : ℝ) < Real.sin (19.48 * 3.141592 / 180) := by
  have hx : (19.48 * 3.141592 / 180 : ℝ) = 2 * (19.48 * 3.141592 / 360) := by norm_num
  rw [hx, Real.sin_two_mul]
  have h0 : (0 : ℝ) ≤ 19.48 * 3.141592 / 360 := by norm_num
  have h1 : (19.48 * 3.141592 / 360 : ℝ) ≤ 1 := by norm_num
  have hs := sin_lower_taylor h0 h1
  have hc := cos_lower_taylor h0 h1
  have hs0 : 0 ≤ Real.sin (19.48 * 3.141592 / 360) :=
    le_of_lt (Real.sin_pos_of_pos_of_le_one (by norm_num) h1)
  have key := mul_le_mul hs hc (by norm_num) hs0
  nlinarith [key]

/-- `arcsin(1/3)` is above `19.46 · 3.141593 / 180`. -/
lemma arcsin_third_gt : (19.46 * 3.141593 / 180 : ℝ) < Real.arcsin (1 / 3) := by
  have hmem1 : Real.sin (19.46 * 3.141593 / 180) ∈ Set.Icc (-1 : ℝ) 1 :=
    ⟨Real.neg_one_le_sin _, Real.sin_le_one _⟩
  have hmem2 : (1 / 3 : ℝ) ∈ Set.Icc (-1 : ℝ) 1 := by constructor <;> norm_num
  have h := Real.strictMonoOn_arcsin hmem1 hmem2 sin_a1_lt_third
  have h0 : (0 : ℝ) ≤ 19.46 * 3.141593 / 180 := by norm_num
  rwa [Real.arcsin_sin (by linarith [Real.pi_pos]) (by nlinarith [Real.pi_gt_d6])] at h

/-- `arcsin(1/3)` is below `19.48 · 3.141592 / 180`. -/
lemma arcsin_third_lt : Real.arcsin (1 / 3) < (19.48 * 3.141592 / 180 : ℝ) := by
  have hmem1 : Real.sin (19.48 * 3.141592 / 180) ∈ Set.Icc (-1 : ℝ) 1 :=
    ⟨Real.neg_one_le_sin _, Real.sin_le_one _⟩
  have hmem2 : (1 / 3 : ℝ) ∈ Set.Icc (-1 : ℝ) 1 := by constructor <;> norm_num
  have h := Real.strictMonoOn_arcsin hmem2 hmem1 third_lt_sin_a2
  have h0 : (0 : ℝ) ≤ 19.48 * 3.141592 / 180 := by norm_num
  rwa [Real.arcsin_sin (by linarith [Real.pi_pos]) (by nlinarith [Real.pi_gt_d6])] at h

/-- C5: `calculateMachAngle` is the `NaN` sentinel (`none`) for `mach ≤ 1`;
for `mach > 1` it is `asin(1/mach)`, which lies strictly between 0 and π/2
and is strictly decreasing in mach; `calculateMachAngle 2 = π/6`; and
`calculateMachAngleDegrees 3` is within 0.01° of 19.47°. -/
theorem c5_mach_angle_spec :
    (∀ mach : ℝ, mach ≤ 1 → calculateMachAngle mach = none) ∧
    (∀ mach : ℝ, 1 < mach →
      calculateMachAngle mach = some (Real.arcsin (1 / mach)) ∧
      0 < Real.arcsin (1 / mach) ∧ Real.arcsin (1 / mach) < Real.pi / 2) ∧
    (∀ mach1 mach2 : ℝ, 1 < mach1 → mach1 < mach2 →
      Real.arcsin (1 / mach2) < Real.arcsin (1 / mach1)) ∧
    calculateMachAngle 2 = some (Real.pi / 6) ∧
    (∃ deg : ℝ, calculateMachAngleDegrees 3 = some deg ∧ |deg - 19.47| < 0.01) := by
  refine ⟨fun mach h => ?_, fun mach h => ?_, fun m1 m2 h1 h12 => ?_, ?_, ?_⟩
  · rw [calculateMachAngle, if_pos h]
  · have hpos : (0 : ℝ) < 1 / mach := one_div_pos.mpr (lt_trans one_pos h)
    refine ⟨by rw [calculateMachAngle, if_neg (not_le.mpr h)], ?_, ?_⟩
    · exact Real.arcsin_pos.mpr hpos
    · exact Real.arcsin_lt_pi_div_two.mpr ((div_lt_one (lt_trans one_pos h)).mpr h)
  · have h02 : (0 : ℝ) < m2 := lt_trans one_pos (lt_trans h1 h12)
    have h01 : (0 : ℝ) < m1 := lt_trans one_pos h1
    have hmem2 : (1 / m2 : ℝ) ∈ Set.Icc (-1 : ℝ) 1 :=
      ⟨le_trans (by norm_num) (le_of_lt (one_div_pos.mpr h02)),
        le_of_lt ((div_lt_one h02).mpr (lt_trans h1 h12))⟩
    have hmem1 : (1 / m1 : ℝ) ∈ Set.Icc (-1 : ℝ) 1 :=
      ⟨le_trans (by norm_num) (le_of_lt (one_div_pos.mpr h01)),
        le_of_lt ((div_lt_one h01).mpr h1)⟩
    exact Real.strictMonoOn_arcsin hmem2 hmem1 (one_div_lt_one_div_of_lt h01 h12)
  · rw [calculateMachAngle, if_neg (by norm_num : ¬(2 : ℝ) ≤ 1)]
    have h6 : Real.arcsin (1 / 2) = Real.pi / 6 := by
      rw [← Real.sin_pi_div_six,
        Real.arcsin_sin (by linarith [Real.pi_pos]) (by linarith [Real.pi_pos])]
    rw [h6]
  · refine ⟨Real.arcsin (1 / 3) * (180 / Real.pi), ?_, ?_⟩
    · rw [calculateMachAngleDegrees, calculateMachAngle, if_neg (by norm_num : ¬(3 : ℝ) ≤ 1)]
      rfl
    · have hπ0 := Real.pi_pos
      have hπl := Real.pi_gt_d6
      have hπu := Real.pi_lt_d6
      have h1 : 19.46 * Real.pi < Real.arcsin (1 / 3) * 180 := by
        linarith [arcsin_third_gt]
      have h2 : Real.arcsin (1 / 3) * 180 < 19.48 * Real.pi := by
        linarith [arcsin_third_lt]
      have hdeg : Real.arcsin (1 / 3) * (180 / Real.pi) =
          Real.arcsin (1 / 3) * 180 / Real.pi := by ring
      rw [abs_lt, hdeg]
      constructor
      · have := (lt_div_iff₀ hπ0).mpr h1
        linarith
      · have := (div_lt_iff₀ hπ0).mpr h2
        linarith

/-- Witness for C5: the sentinel at mach 0.5, the branch and range at mach 2,
and strict decrease between mach 2 and mach 3. -/
theorem c5_witness :
    ((0.5 : ℝ) ≤ 1 ∧ calculateMachAngle 0.5 = none) ∧
    ((1 : ℝ) < 2 ∧ (calculateMachAngle 2 = some (Real.arcsin (1 / 2)) ∧
      0 < Real.arcsin (1 / 2) ∧ Real.arcsin (1 / 2) < Real.pi / 2)) ∧
    ((1 : ℝ) < 2 ∧ (2 : ℝ) < 3 ∧ Real.arcsin (1 / 3) < Real.arcsin (1 / 2)) :=
  ⟨⟨by norm_num, c5_mach_angle_spec.1 0.5 (by norm_num)⟩,
   ⟨by norm_num, c5_mach_angle_spec.2.1 2 (by norm_num)⟩,
   ⟨by norm_num, by norm_num, c5_mach_angle_spec.2.2.1 2 3 (by norm_num) (by norm_num)⟩⟩

end Shockwave
